import Mathlib

/-!
# Verification of the FCR VPP sizing simulator (vpp6.py)

Shallow embedding of the core of `src/vpp6.py`: the configuration
constants, the SOC update rule (`update_soc`), the slot simulator
(`simulate_fcr_slot`), the two year simulators (`simulate_year`,
`simulate_year_with_tracking`), the Monte Carlo estimator
(`annual_success_probability`) and the capacity search
(`find_min_assets_annual`).

Numpy float arrays are embedded as `List ℚ`; the ambient numpy random
generator is embedded as explicitly injected draws: a `SlotDraw` holds
the raw normal power samples and the raw uniform availability samples
for one slot, a `YearDraw` holds the raw initial-SOC samples and the
per-slot draws for one simulated year.  The loops of the Python code
become structural recursion over the injected draw lists.
-/

namespace VPP

/-! ## Configuration constants (vpp6.py lines 9-33) -/

def ENERGY_HOURS : ℚ := 4

def REQUIRED_POWER : ℚ := 10000

def N_SLOTS_YEAR : ℕ := 2190

def POWER_MEAN : ℚ := 100

def POWER_STD : ℚ := 20

def SOC_MEAN : ℚ := 600

def SOC_STD : ℚ := 100

def P_AVAILABLE_FCR : ℚ := 7/10

def SOC_DEGRADATION_PER_USE : ℚ := 2/1000

def TARGET_NET_BALANCE : ℚ := 5/10000

/-- The recharge-rate formula of vpp6.py line 30, as a function of the
availability probability `p`; the module evaluates it once at the fixed
constant `P_AVAILABLE_FCR`.  The code performs no validation of `p`:
the expression is evaluated unconditionally. -/
def SOC_RECHARGE_RATE_of (p : ℚ) : ℚ :=
  (SOC_DEGRADATION_PER_USE * p + TARGET_NET_BALANCE) / (1 - p)

def SOC_RECHARGE_RATE : ℚ := SOC_RECHARGE_RATE_of P_AVAILABLE_FCR

def MIN_SUCCESS_RATE : ℚ := 95/100

/-- Validating configuration construction as the spec describes it
(spec §7, "Configuration error"): accept the availability probability
only when it lies in the open interval (0,1), otherwise report a
configuration error (`none`).  This is the spec's claimed behaviour,
written to be compared against the unconditional `SOC_RECHARGE_RATE_of`
that the code actually evaluates. -/
def mkRechargeRateChecked (p : ℚ) : Option ℚ :=
  if 0 < p ∧ p < 1 then some (SOC_RECHARGE_RATE_of p) else none

/-! ## SOC update rule (vpp6.py lines 39-66)

`delta_soc` is `-SOC_DEGRADATION_PER_USE * SOC_MEAN` on the masked
assets and `SOC_RECHARGE_RATE * SOC_MEAN` on the rest; the result is
`np.clip(socs + delta_soc, 0, None)`, i.e. an elementwise `max · 0`.
The `powers` argument is accepted but (as in the Python code) unused. -/

def update_soc (socs powers : List ℚ) (available_for_fcr : List Bool) : List ℚ :=
  List.zipWith
    (fun s m =>
      max (s + (if m then -(SOC_DEGRADATION_PER_USE * SOC_MEAN)
                else SOC_RECHARGE_RATE * SOC_MEAN)) 0)
    socs available_for_fcr

/-! ## Slot simulator (vpp6.py lines 72-111) -/

/-- The raw random numbers one call of `simulate_fcr_slot` consumes:
`rawPowers` are the `np.random.normal(POWER_MEAN, POWER_STD, n)` samples
(before the clip to 20), `availU` the `np.random.random(n)` uniforms
compared against `P_AVAILABLE_FCR`. -/
structure SlotDraw where
  rawPowers : List ℚ
  availU : List ℚ
deriving Repr, DecidableEq

/-- Return value of `simulate_fcr_slot`: success flag, can-deliver mask,
availability mask, drawn (clipped) power vector. -/
structure SlotResult where
  success : Bool
  can_provide_fcr : List Bool
  available_for_fcr : List Bool
  powers : List ℚ
deriving Repr, DecidableEq

/-- Embeds `np.sum(powers[mask])`: sum of the entries of `powers` where the
boolean mask is true (mismatched tails are ignored, as lengths always
agree in the program). -/
def sumMasked (powers : List ℚ) (mask : List Bool) : ℚ :=
  (List.zipWith (fun p m => if m then p else 0) powers mask).sum

def simulate_fcr_slot (socs : List ℚ) (d : SlotDraw) : SlotResult :=
  let powers := d.rawPowers.map (fun x => max x 20)
  let available_for_fcr := d.availU.map (fun u => decide (u < P_AVAILABLE_FCR))
  let has_enough_soc := List.zipWith (fun s p => decide (p * ENERGY_HOURS ≤ s)) socs powers
  let can_provide_fcr := List.zipWith (· && ·) available_for_fcr has_enough_soc
  let available_fcr_power := sumMasked powers can_provide_fcr
  let success := decide (REQUIRED_POWER ≤ available_fcr_power)
  ⟨success, can_provide_fcr, available_for_fcr, powers⟩

/-! ## Year simulators (vpp6.py lines 117-193)

The random source a year consumes: the raw initial-SOC normal samples
and one `SlotDraw` per loop iteration.  The Python loops run exactly
`N_SLOTS_YEAR` iterations; the embedding folds over the injected list
of slot draws (the program always supplies `N_SLOTS_YEAR` of them). -/

structure YearDraw where
  rawInitSoc : List ℚ
  slots : List SlotDraw
deriving Repr, DecidableEq

/-- Embeds `np.clip(np.random.normal(SOC_MEAN, SOC_STD, n), 0, None)`:
the initial SOC vector of a year. -/
def initSocs (d : YearDraw) : List ℚ :=
  d.rawInitSoc.map (fun x => max x 0)

/-- The success-counting loop of `simulate_year` (lines 185-191):
one slot simulation, count the success, update the SOC, recurse. -/
def yearLoop : List ℚ → List SlotDraw → ℕ
  | _, [] => 0
  | socs, sd :: rest =>
    let r := simulate_fcr_slot socs sd
    (if r.success then 1 else 0) +
      yearLoop (update_soc socs r.powers r.can_provide_fcr) rest

/-- Observer of the lightweight loop: the sequence of per-slot success
flags that `yearLoop` computes (the lightweight variant counts them
without retaining them; this definition retains them, changing nothing
in the transition). -/
def yearFlags : List ℚ → List SlotDraw → List Bool
  | _, [] => []
  | socs, sd :: rest =>
    let r := simulate_fcr_slot socs sd
    r.success :: yearFlags (update_soc socs r.powers r.can_provide_fcr) rest

/-- Embeds `simulate_year` (lines 172-193): returns the Boolean
`success_count / N_SLOTS_YEAR >= MIN_SUCCESS_RATE`. -/
def simulate_year (d : YearDraw) : Bool :=
  decide (MIN_SUCCESS_RATE ≤ (yearLoop (initSocs d) d.slots : ℚ) / (N_SLOTS_YEAR : ℚ))

/-- The fraction of successful slots computed inside `simulate_year`
(the quantity `success_count / N_SLOTS_YEAR` of line 193, before the
comparison against `MIN_SUCCESS_RATE`). -/
def simulate_year_fraction (d : YearDraw) : ℚ :=
  (yearLoop (initSocs d) d.slots : ℚ) / (N_SLOTS_YEAR : ℚ)

/-- Reading of a Boolean return value as a number (true ↦ 1,
false ↦ 0), used to compare `simulate_year`'s Boolean result with the
fraction the spec says it returns. -/
def boolToRat (b : Bool) : ℚ := if b then 1 else 0

/-- Embeds `np.sum(mask)` on a boolean mask: the number of true entries. -/
def countTrue (l : List Bool) : ℕ := l.count true

/-- Embeds `np.sum(socs >= powers * ENERGY_HOURS)`: the number of assets whose
SOC covers the slot-duration energy requirement at the given powers. -/
def soc_ok_count (socs powers : List ℚ) : ℕ :=
  countTrue (List.zipWith (fun s p => decide (p * ENERGY_HOURS ≤ s)) socs powers)

/-- Accumulated state of the tracking loop of
`simulate_year_with_tracking` (lines 146-160): the success count and
the five per-slot histories gathered from the current slot onwards. -/
structure TrackState where
  success_count : ℕ
  soc_hist : List (List ℚ)
  fcr_power_hist : List ℚ
  success_hist : List Bool
  available_hist : List ℕ
  soc_ok_hist : List ℕ
deriving Repr, DecidableEq

/-- The tracking loop (lines 146-160): per iteration, simulate the
slot, update the SOC, and record (post-update SOC snapshot, delivered
power, success flag, available count, SOC-sufficiency count of the
POST-update SOC against this slot's powers). -/
def trackLoop : List ℚ → List SlotDraw → TrackState
  | _, [] => ⟨0, [], [], [], [], []⟩
  | socs, sd :: rest =>
    let r := simulate_fcr_slot socs sd
    let socs2 := update_soc socs r.powers r.can_provide_fcr
    let t := trackLoop socs2 rest
    ⟨(if r.success then 1 else 0) + t.success_count,
     socs2 :: t.soc_hist,
     sumMasked r.powers r.can_provide_fcr :: t.fcr_power_hist,
     r.success :: t.success_hist,
     countTrue r.available_for_fcr :: t.available_hist,
     soc_ok_count socs2 r.powers :: t.soc_ok_hist⟩

/-- The result record of `simulate_year_with_tracking`
(lines 162-169). -/
structure YearTrackResult where
  soc_history : List (List ℚ)
  fcr_power_history : List ℚ
  success_history : List Bool
  available_history : List ℕ
  soc_ok_history : List ℕ
  success_rate : ℚ
deriving Repr, DecidableEq

/-- Embeds `simulate_year_with_tracking` (lines 117-169): the SOC history
starts with the initial SOC vector (line 139), the other histories have
one entry per slot, and `success_rate = success_count / N_SLOTS_YEAR`. -/
def simulate_year_with_tracking (d : YearDraw) : YearTrackResult :=
  let socs0 := initSocs d
  let t := trackLoop socs0 d.slots
  ⟨socs0 :: t.soc_hist, t.fcr_power_hist, t.success_hist, t.available_hist,
   t.soc_ok_hist, (t.success_count : ℚ) / (N_SLOTS_YEAR : ℚ)⟩

/-! ## Monte Carlo estimator and capacity search (vpp6.py lines 199-220, 514-562) -/

/-- Embeds `annual_success_probability` (lines 199-215): the injected
randomness is one `YearDraw` per trial; the trial count of the Python
signature is the length of the injected list.  Returns the fraction of
trials whose `simulate_year` verdict is true. -/
def annual_success_probability (trials : List YearDraw) : ℚ :=
  ((trials.countP (fun d => simulate_year d)) : ℚ) / (trials.length : ℚ)

/-- Embeds `installed_capacity` (lines 218-220). -/
def installed_capacity (n_assets : ℕ) : ℚ := (n_assets : ℚ) * POWER_MEAN

/-- Embeds `range(n_min, n_max + 1, step)` of line 537: the ascending list
`n_min, n_min + step, …` of all such values `≤ n_max`. -/
def candidate_sizes (n_min n_max step : ℕ) : List ℕ :=
  List.range' n_min (if n_min ≤ n_max then (n_max - n_min) / step + 1 else 0) step

/-- The scanning loop of `find_min_assets_annual` (lines 537-562) over
an explicit candidate list: estimate the probability of the candidate,
return the tuple `(n_assets, capacity, oversizing, prob)` at the first
candidate clearing the target, else recurse; `none` when the list is
exhausted (the Python `return None` of line 562). -/
def searchLoop (trialsFor : ℕ → List YearDraw) (confidence_target : ℚ) :
    List ℕ → Option (ℕ × ℚ × ℚ × ℚ)
  | [] => none
  | n_assets :: rest =>
    let prob := annual_success_probability (trialsFor n_assets)
    let capacity := installed_capacity n_assets
    let oversizing := capacity / REQUIRED_POWER
    if confidence_target ≤ prob then some (n_assets, capacity, oversizing, prob)
    else searchLoop trialsFor confidence_target rest

/-- Embeds `find_min_assets_annual` (lines 514-562): scan the candidate sizes
in ascending order; `trialsFor n` is the injected randomness of the
Monte Carlo estimation at candidate size `n`. -/
def find_min_assets_annual (trialsFor : ℕ → List YearDraw) (confidence_target : ℚ)
    (n_min n_max step : ℕ) : Option (ℕ × ℚ × ℚ × ℚ) :=
  searchLoop trialsFor confidence_target (candidate_sizes n_min n_max step)

/-! ## Concrete example draws -/

/-- A slot draw whose single asset delivers 20000 kW and is available
(uniform sample 0 < 0.7). -/
def oneGoodSlot : SlotDraw := ⟨[20000], [0]⟩

/-- A slot draw whose single asset is unavailable (uniform sample
1 ≥ 0.7), so the slot fails whatever the SOC. -/
def deadSlot : SlotDraw := ⟨[20], [1]⟩

/-- A full-year draw (2190 slots) for a 1-asset portfolio in which
exactly the first slot succeeds: success count 1, fraction 1/2190. -/
def oneSuccessYear : YearDraw :=
  ⟨[100000], oneGoodSlot :: List.replicate (N_SLOTS_YEAR - 1) deadSlot⟩

/-- A slot draw exhibiting the post-update recording of the
SOC-sufficiency count: power 20 kW (requirement 80 kWh), asset
available. -/
def diffSlot : SlotDraw := ⟨[20], [0]⟩

/-- A 1-slot draw with initial SOC 80.5 kWh: before the update the
asset meets the 80 kWh requirement (count 1), after the update
(80.5 − 1.2 = 79.3) it does not (count 0). -/
def diffDraw : YearDraw := ⟨[161/2], [diffSlot]⟩

/-! ## Helper lemmas -/

theorem update_soc_nil (powers : List ℚ) (mask : List Bool) :
    update_soc [] powers mask = [] := rfl

theorem simulate_fcr_slot_nil_success (sd : SlotDraw) :
    (simulate_fcr_slot [] sd).success = false := by
  simp [simulate_fcr_slot, sumMasked, REQUIRED_POWER]

theorem yearLoop_cons (socs : List ℚ) (sd : SlotDraw) (rest : List SlotDraw) :
    yearLoop socs (sd :: rest) =
      (if (simulate_fcr_slot socs sd).success then 1 else 0) +
        yearLoop (update_soc socs (simulate_fcr_slot socs sd).powers
          (simulate_fcr_slot socs sd).can_provide_fcr) rest := rfl

theorem yearLoop_nil_socs (slots : List SlotDraw) : yearLoop [] slots = 0 := by
  induction slots with
  | nil => rfl
  | cons sd rest ih =>
    simp [yearLoop, simulate_fcr_slot_nil_success, update_soc_nil, ih]

theorem yearLoop_le_length (slots : List SlotDraw) :
    ∀ socs, yearLoop socs slots ≤ slots.length := by
  induction slots with
  | nil => intro socs; simp [yearLoop]
  | cons sd rest ih =>
    intro socs
    simp only [yearLoop, List.length_cons]
    have := ih (update_soc socs (simulate_fcr_slot socs sd).powers
      (simulate_fcr_slot socs sd).can_provide_fcr)
    split <;> omega

theorem simulate_fcr_slot_dead (socs : List ℚ) :
    (simulate_fcr_slot socs deadSlot).success = false := by
  cases socs with
  | nil => exact simulate_fcr_slot_nil_success deadSlot
  | cons s rest =>
    simp [simulate_fcr_slot, deadSlot, sumMasked, P_AVAILABLE_FCR, REQUIRED_POWER]
    norm_num

theorem yearLoop_replicate_dead (n : ℕ) :
    ∀ socs, yearLoop socs (List.replicate n deadSlot) = 0 := by
  induction n with
  | zero => intro socs; rfl
  | succ n ih =>
    intro socs
    simp [List.replicate_succ, yearLoop, simulate_fcr_slot_dead, ih]

theorem trackLoop_success_hist (slots : List SlotDraw) :
    ∀ socs, (trackLoop socs slots).success_hist = yearFlags socs slots := by
  induction slots with
  | nil => intro socs; rfl
  | cons sd rest ih => intro socs; simp [trackLoop, yearFlags, ih]

theorem trackLoop_count (slots : List SlotDraw) :
    ∀ socs, (trackLoop socs slots).success_count = yearLoop socs slots := by
  induction slots with
  | nil => intro socs; rfl
  | cons sd rest ih => intro socs; simp [trackLoop, yearLoop, ih]

theorem yearLoop_eq_count_flags (slots : List SlotDraw) :
    ∀ socs, yearLoop socs slots = (yearFlags socs slots).count true := by
  induction slots with
  | nil => intro socs; rfl
  | cons sd rest ih =>
    intro socs
    simp only [yearLoop, yearFlags, List.count_cons, ih]
    cases (simulate_fcr_slot socs sd).success <;> simp <;> omega

theorem trackLoop_soc_hist_length (slots : List SlotDraw) :
    ∀ socs, (trackLoop socs slots).soc_hist.length = slots.length := by
  induction slots with
  | nil => intro socs; rfl
  | cons sd rest ih => intro socs; simp [trackLoop, ih]

theorem trackLoop_ok_hist_length (slots : List SlotDraw) :
    ∀ socs, (trackLoop socs slots).soc_ok_hist.length = slots.length := by
  induction slots with
  | nil => intro socs; rfl
  | cons sd rest ih => intro socs; simp [trackLoop, ih]

theorem trackLoop_ok_spec (slots : List SlotDraw) :
    ∀ socs (t : ℕ)
      (h1 : t < (trackLoop socs slots).soc_ok_hist.length)
      (h2 : t < (trackLoop socs slots).soc_hist.length)
      (h3 : t < slots.length),
      (trackLoop socs slots).soc_ok_hist.get ⟨t, h1⟩ =
        soc_ok_count ((trackLoop socs slots).soc_hist.get ⟨t, h2⟩)
          ((slots.get ⟨t, h3⟩).rawPowers.map (fun x => max x 20)) := by
  induction slots with
  | nil => intro socs t h1 h2 h3; simp at h3
  | cons sd rest ih =>
    intro socs t h1 h2 h3
    cases t with
    | zero => rfl
    | succ t =>
      simp only [trackLoop, List.get_eq_getElem, List.getElem_cons_succ]
      have h1' : t < (trackLoop (update_soc socs (simulate_fcr_slot socs sd).powers
          (simulate_fcr_slot socs sd).can_provide_fcr) rest).soc_ok_hist.length := by
        simpa [trackLoop, trackLoop_ok_hist_length] using h1
      have h2' : t < (trackLoop (update_soc socs (simulate_fcr_slot socs sd).powers
          (simulate_fcr_slot socs sd).can_provide_fcr) rest).soc_hist.length := by
        simpa [trackLoop, trackLoop_soc_hist_length] using h2
      have h3' : t < rest.length := by simpa using h3
      simpa [List.get_eq_getElem] using ih _ t h1' h2' h3'

theorem searchLoop_none_iff (trialsFor : ℕ → List YearDraw) (target : ℚ)
    (l : List ℕ) :
    searchLoop trialsFor target l = none ↔
      ∀ m ∈ l, annual_success_probability (trialsFor m) < target := by
  induction l with
  | nil => simp [searchLoop]
  | cons a rest ih =>
    simp only [searchLoop]
    rcases le_or_lt target (annual_success_probability (trialsFor a)) with h | h
    · rw [if_pos h]
      constructor
      · intro hc; exact absurd hc (by simp)
      · intro hall; exact absurd (hall a (by simp)) (not_lt.mpr h)
    · rw [if_neg (not_le.mpr h), ih]
      constructor
      · intro hall m hm
        rcases List.mem_cons.mp hm with rfl | hm'
        · exact h
        · exact hall m hm'
      · intro hall m hm
        exact hall m (List.mem_cons_of_mem _ hm)

theorem searchLoop_some_spec (trialsFor : ℕ → List YearDraw) (target : ℚ)
    (l : List ℕ) (hpw : List.Pairwise (· < ·) l) :
    ∀ n c o p, searchLoop trialsFor target l = some (n, c, o, p) →
      n ∈ l ∧ target ≤ annual_success_probability (trialsFor n) ∧
      p = annual_success_probability (trialsFor n) ∧
      c = installed_capacity n ∧
      o = installed_capacity n / REQUIRED_POWER ∧
      ∀ m ∈ l, m < n → annual_success_probability (trialsFor m) < target := by
  induction l with
  | nil => intro n c o p h; simp [searchLoop] at h
  | cons a rest ih =>
    intro n c o p h
    obtain ⟨hhead, htail⟩ := List.pairwise_cons.mp hpw
    simp only [searchLoop] at h
    rcases le_or_lt target (annual_success_probability (trialsFor a)) with hle | hlt
    · rw [if_pos hle, Option.some.injEq, Prod.mk.injEq, Prod.mk.injEq,
        Prod.mk.injEq] at h
      obtain ⟨h1, h2, h3, h4⟩ := h
      subst h1 h2 h3 h4
      refine ⟨by simp, hle, rfl, rfl, rfl, ?_⟩
      intro m hm hlt'
      rcases List.mem_cons.mp hm with rfl | hm'
      · exact absurd hlt' (lt_irrefl _)
      · exact absurd hlt' (not_lt.mpr (hhead m hm').le)
    · rw [if_neg (not_le.mpr hlt)] at h
      obtain ⟨hmem, htarget, hp, hc, ho, hfirst⟩ := ih htail n c o p h
      refine ⟨List.mem_cons_of_mem _ hmem, htarget, hp, hc, ho, ?_⟩
      intro m hm hlt'
      rcases List.mem_cons.mp hm with rfl | hm'
      · exact hlt
      · exact hfirst m hm' hlt'

theorem candidate_sizes_pairwise (n_min n_max step : ℕ) (hstep : 0 < step) :
    List.Pairwise (· < ·) (candidate_sizes n_min n_max step) := by
  unfold candidate_sizes
  exact List.pairwise_lt_range' _ _ _ hstep

theorem candidate_sizes_mem_bounds (n_min n_max step : ℕ) :
    ∀ m ∈ candidate_sizes n_min n_max step,
      n_min ≤ m ∧ m ≤ n_max ∧ step ∣ (m - n_min) := by
  intro m hm
  rw [candidate_sizes, List.mem_range'] at hm
  obtain ⟨i, hi, rfl⟩ := hm
  refine ⟨Nat.le_add_right _ _, ?_, ⟨i, by omega⟩⟩
  by_cases hle : n_min ≤ n_max
  · rw [if_pos hle] at hi
    have h1 : i ≤ (n_max - n_min) / step := by omega
    have h2 : step * i ≤ n_max - n_min := by
      calc step * i ≤ step * ((n_max - n_min) / step) := Nat.mul_le_mul_left _ h1
        _ = (n_max - n_min) / step * step := Nat.mul_comm _ _
        _ ≤ n_max - n_min := Nat.div_mul_le_self _ _
    omega
  · rw [if_neg hle] at hi
    omega

/-! ## Claim theorems -/

/-- Claim C5: for every input SOC vector and every random draw, the
slot simulator's success flag is true iff the sum of the drawn power
ratings over the assets whose can-deliver mask is true is ≥ the
required aggregate power (equality counts as success, the comparison
being `≤`). -/
theorem C5_slot_success_iff_sum_ge_required (socs : List ℚ) (d : SlotDraw) :
    (simulate_fcr_slot socs d).success = true ↔
      REQUIRED_POWER ≤
        sumMasked (simulate_fcr_slot socs d).powers
          (simulate_fcr_slot socs d).can_provide_fcr := by
  simp [simulate_fcr_slot]

/-- Claim C6: every component of the vector returned by the SOC update
rule is ≥ 0, for every input SOC vector, power vector and mask. -/
theorem C6_update_soc_nonneg (socs powers : List ℚ) (mask : List Bool) (i : ℕ)
    (h : i < (update_soc socs powers mask).length) :
    0 ≤ (update_soc socs powers mask).get ⟨i, h⟩ := by
  simp only [update_soc, List.get_eq_getElem, List.getElem_zipWith]
  exact le_max_right _ _

/-- Witness for C6 at a concrete input whose delta drives the SOC below
zero: the clamped result is still ≥ 0. -/
theorem C6_update_soc_nonneg_witness :
    0 ≤ (update_soc [(-5 : ℚ)] [50] [true]).get
          ⟨0, by simp [update_soc]⟩ :=
  C6_update_soc_nonneg [(-5 : ℚ)] [50] [true] 0 _

/-- Claim C7: the can-deliver mask is a subset of the availability
mask: whenever `can_provide_fcr` is true at an index, so is
`available_for_fcr`. -/
theorem C7_can_deliver_subset_available (socs : List ℚ) (d : SlotDraw) (i : ℕ)
    (h1 : i < (simulate_fcr_slot socs d).can_provide_fcr.length)
    (h2 : i < (simulate_fcr_slot socs d).available_for_fcr.length)
    (hc : (simulate_fcr_slot socs d).can_provide_fcr.get ⟨i, h1⟩ = true) :
    (simulate_fcr_slot socs d).available_for_fcr.get ⟨i, h2⟩ = true := by
  simp only [simulate_fcr_slot, List.get_eq_getElem, List.getElem_zipWith,
    Bool.and_eq_true] at hc ⊢
  exact hc.1

/-- Witness for C7 at a concrete draw: the single asset is available
and can deliver. -/
theorem C7_can_deliver_subset_available_witness :
    (simulate_fcr_slot [(700 : ℚ)] ⟨[100], [0]⟩).available_for_fcr.get
        ⟨0, by simp [simulate_fcr_slot]⟩ = true :=
  C7_can_deliver_subset_available [(700 : ℚ)] ⟨[100], [0]⟩ 0
    (by simp [simulate_fcr_slot]) (by simp [simulate_fcr_slot])
    (by simp [simulate_fcr_slot, ENERGY_HOURS, P_AVAILABLE_FCR]; norm_num [max_def])

/-- Claim C8: the configured degradation and recharge rates are both
positive, and under them every asset marked used-for-FCR strictly
decreases or lands on the zero floor, while every asset marked
not-used strictly increases, on every call with a non-negative current
SOC entry. -/
theorem C8_update_soc_directions :
    0 < SOC_DEGRADATION_PER_USE ∧ 0 < SOC_RECHARGE_RATE ∧
    ∀ (socs powers : List ℚ) (mask : List Bool) (i : ℕ)
      (hs : i < socs.length) (hm : i < mask.length)
      (h : i < (update_soc socs powers mask).length),
      0 ≤ socs.get ⟨i, hs⟩ →
      ((mask.get ⟨i, hm⟩ = true →
          (update_soc socs powers mask).get ⟨i, h⟩ < socs.get ⟨i, hs⟩ ∨
            (update_soc socs powers mask).get ⟨i, h⟩ = 0) ∧
        (mask.get ⟨i, hm⟩ = false →
          socs.get ⟨i, hs⟩ < (update_soc socs powers mask).get ⟨i, h⟩)) := by
  refine ⟨by norm_num [SOC_DEGRADATION_PER_USE], ?_, ?_⟩
  · norm_num [SOC_RECHARGE_RATE, SOC_RECHARGE_RATE_of, SOC_DEGRADATION_PER_USE,
      TARGET_NET_BALANCE, P_AVAILABLE_FCR]
  intro socs powers mask i hs hm h h0
  simp only [update_soc, List.get_eq_getElem, List.getElem_zipWith]
  constructor
  · intro hmask
    rw [if_pos hmask]
    rcases le_or_lt (socs[i] + -(SOC_DEGRADATION_PER_USE * SOC_MEAN)) 0 with hle | hlt
    · exact Or.inr (max_eq_right hle)
    · refine Or.inl ?_
      rw [max_eq_left hlt.le]
      have : (0 : ℚ) < SOC_DEGRADATION_PER_USE * SOC_MEAN := by
        norm_num [SOC_DEGRADATION_PER_USE, SOC_MEAN]
      linarith
  · intro hmask
    rw [if_neg (by simp [hmask])]
    have : (0 : ℚ) < SOC_RECHARGE_RATE * SOC_MEAN := by
      norm_num [SOC_RECHARGE_RATE, SOC_RECHARGE_RATE_of, SOC_DEGRADATION_PER_USE,
        TARGET_NET_BALANCE, P_AVAILABLE_FCR, SOC_MEAN]
    calc socs[i] < socs[i] + SOC_RECHARGE_RATE * SOC_MEAN := by linarith
      _ ≤ max (socs[i] + SOC_RECHARGE_RATE * SOC_MEAN) 0 := le_max_left _ _

/-- Witness for C8 at a concrete call: one used asset at SOC 700
strictly decreases, one idle asset at SOC 700 strictly increases. -/
theorem C8_update_soc_directions_witness :
    ((update_soc [(700 : ℚ), 700] [50, 50] [true, false]).get
        ⟨0, by simp [update_soc]⟩ < (700 : ℚ) ∨
      (update_soc [(700 : ℚ), 700] [50, 50] [true, false]).get
        ⟨0, by simp [update_soc]⟩ = 0) ∧
    (700 : ℚ) < (update_soc [(700 : ℚ), 700] [50, 50] [true, false]).get
        ⟨1, by simp [update_soc]⟩ := by
  constructor
  · exact (C8_update_soc_directions.2.2 [(700 : ℚ), 700] [50, 50] [true, false] 0
      (by decide) (by decide) _ (by norm_num)).1 rfl
  · exact (C8_update_soc_directions.2.2 [(700 : ℚ), 700] [50, 50] [true, false] 1
      (by decide) (by decide) _ (by norm_num)).2 rfl

/-- Claim C4, counterexample: the code performs no validation of the
availability probability.  At the invalid probability 2 (outside
(0,1)), the code's unconditional recharge-rate formula silently
evaluates to the negative rate −9/2000, whereas the validating
construction the claim describes reports a configuration error
(`none`): the code does not implement the claimed validation. -/
theorem C4_no_validation_counterexample :
    SOC_RECHARGE_RATE_of 2 = -(9/2000) ∧ mkRechargeRateChecked 2 = none := by
  constructor
  · norm_num [SOC_RECHARGE_RATE_of, SOC_DEGRADATION_PER_USE, TARGET_NET_BALANCE]
  · norm_num [mkRechargeRateChecked]

/-- Claim C4, amended: the code never validates the availability
probability; instead the probability is the fixed constant 0.70, which
does lie in the open interval (0,1), so the derived recharge rate is
well-defined (denominator 1 − p ≠ 0) and positive, equal to 19/3000,
and the validating construction accepts it. -/
theorem C4_fixed_probability_in_range :
    (0 < P_AVAILABLE_FCR ∧ P_AVAILABLE_FCR < 1) ∧
    1 - P_AVAILABLE_FCR ≠ 0 ∧
    SOC_RECHARGE_RATE = 19/3000 ∧ 0 < SOC_RECHARGE_RATE ∧
    mkRechargeRateChecked P_AVAILABLE_FCR = some SOC_RECHARGE_RATE := by
  refine ⟨⟨by norm_num [P_AVAILABLE_FCR], by norm_num [P_AVAILABLE_FCR]⟩,
    by norm_num [P_AVAILABLE_FCR], ?_, ?_, ?_⟩
  · norm_num [SOC_RECHARGE_RATE, SOC_RECHARGE_RATE_of, SOC_DEGRADATION_PER_USE,
      TARGET_NET_BALANCE, P_AVAILABLE_FCR]
  · norm_num [SOC_RECHARGE_RATE, SOC_RECHARGE_RATE_of, SOC_DEGRADATION_PER_USE,
      TARGET_NET_BALANCE, P_AVAILABLE_FCR]
  · simp [mkRechargeRateChecked, P_AVAILABLE_FCR, SOC_RECHARGE_RATE]
    norm_num

/-- Claim C3: with the same injected random source and the same
initial SOC draw, the tracking variant's per-slot success flags equal
the flag sequence of the shared slot-to-slot transition (also the
lightweight loop's flags), both variants compute the same final
success fraction, and the lightweight variant's Boolean verdict is
exactly the threshold comparison on the tracking variant's
success-rate. -/
theorem C3_variants_agree (d : YearDraw) :
    (simulate_year_with_tracking d).success_history =
      yearFlags (initSocs d) d.slots ∧
    (simulate_year_with_tracking d).success_rate =
      ((yearFlags (initSocs d) d.slots).count true : ℚ) / (N_SLOTS_YEAR : ℚ) ∧
    simulate_year_fraction d =
      ((yearFlags (initSocs d) d.slots).count true : ℚ) / (N_SLOTS_YEAR : ℚ) ∧
    simulate_year d =
      decide (MIN_SUCCESS_RATE ≤ (simulate_year_with_tracking d).success_rate) := by
  refine ⟨?_, ?_, ?_, ?_⟩
  · simp [simulate_year_with_tracking, trackLoop_success_hist]
  · simp [simulate_year_with_tracking, trackLoop_count, yearLoop_eq_count_flags]
  · simp [simulate_year_fraction, yearLoop_eq_count_flags]
  · simp [simulate_year, simulate_year_with_tracking, trackLoop_count]

/-- Claim C9: the empty portfolio is handled, not rejected: on the
empty SOC vector every slot's success flag is trivially false
(aggregate 0 < required power), and both year simulators complete,
the lightweight one returning the verdict false and the tracking one
the success-rate 0. -/
theorem C9_empty_portfolio (sd : SlotDraw) (d : YearDraw)
    (hd : d.rawInitSoc = []) :
    (simulate_fcr_slot [] sd).success = false ∧
    simulate_year d = false ∧
    (simulate_year_with_tracking d).success_rate = 0 := by
  have hsoc : initSocs d = [] := by simp [initSocs, hd]
  refine ⟨simulate_fcr_slot_nil_success sd, ?_, ?_⟩
  · simp only [simulate_year, hsoc, yearLoop_nil_socs]
    simp [MIN_SUCCESS_RATE, N_SLOTS_YEAR]
  · simp [simulate_year_with_tracking, hsoc, trackLoop_count, yearLoop_nil_socs]

/-- Witness for C9 at a concrete one-slot draw of an empty
portfolio. -/
theorem C9_empty_portfolio_witness :
    (simulate_fcr_slot [] ⟨[], []⟩).success = false ∧
    simulate_year ⟨[], [⟨[], []⟩]⟩ = false ∧
    (simulate_year_with_tracking ⟨[], [⟨[], []⟩]⟩).success_rate = 0 :=
  C9_empty_portfolio ⟨[], []⟩ ⟨[], [⟨[], []⟩]⟩ rfl

/-- Claim C10: in the tracking variant the SOC-sufficiency count
recorded for slot t is computed from the SOC vector AFTER slot t's SOC
update (row t+1 of the SOC history), compared against slot t's drawn
power requirement; and it can differ from the pre-update count that
determined the slot's can-deliver decision, as the concrete run
`diffDraw` shows (recorded count 0, pre-update count 1). -/
theorem C10_soc_ok_recorded_post_update :
    (∀ (d : YearDraw) (t : ℕ)
      (h1 : t < (simulate_year_with_tracking d).soc_ok_history.length)
      (h2 : t + 1 < (simulate_year_with_tracking d).soc_history.length)
      (h3 : t < d.slots.length),
      (simulate_year_with_tracking d).soc_ok_history.get ⟨t, h1⟩ =
        soc_ok_count
          ((simulate_year_with_tracking d).soc_history.get ⟨t + 1, h2⟩)
          ((d.slots.get ⟨t, h3⟩).rawPowers.map (fun x => max x 20))) ∧
    (simulate_year_with_tracking diffDraw).soc_ok_history = [0] ∧
    soc_ok_count (initSocs diffDraw)
      (diffSlot.rawPowers.map (fun x => max x 20)) = 1 := by
  refine ⟨?_, ?_, ?_⟩
  · intro d t h1 h2 h3
    have h1' : t < (trackLoop (initSocs d) d.slots).soc_ok_hist.length := by
      simpa [simulate_year_with_tracking] using h1
    have h2' : t < (trackLoop (initSocs d) d.slots).soc_hist.length := by
      simpa [simulate_year_with_tracking] using h2
    simpa [simulate_year_with_tracking, List.get_eq_getElem] using
      trackLoop_ok_spec d.slots (initSocs d) t h1' h2' h3
  · simp [simulate_year_with_tracking, diffDraw, diffSlot, trackLoop, initSocs,
      simulate_fcr_slot, update_soc, soc_ok_count, countTrue, sumMasked,
      ENERGY_HOURS, P_AVAILABLE_FCR, SOC_DEGRADATION_PER_USE, SOC_MEAN]
    norm_num [max_def]
  · simp [initSocs, diffDraw, diffSlot, soc_ok_count, countTrue, ENERGY_HOURS]
    norm_num [max_def]

/-- Witness for C10 at the concrete run `diffDraw`, slot 0: the
recorded count equals the post-update count. -/
theorem C10_soc_ok_recorded_post_update_witness :
    (simulate_year_with_tracking diffDraw).soc_ok_history.get
        ⟨0, by simp [simulate_year_with_tracking, trackLoop_ok_hist_length, diffDraw]⟩ =
      soc_ok_count
        ((simulate_year_with_tracking diffDraw).soc_history.get
          ⟨1, by simp [simulate_year_with_tracking, trackLoop_soc_hist_length, diffDraw]⟩)
        ((diffDraw.slots.get ⟨0, by simp [diffDraw]⟩).rawPowers.map (fun x => max x 20)) :=
  C10_soc_ok_recorded_post_update.1 diffDraw 0
    (by simp [simulate_year_with_tracking, trackLoop_ok_hist_length, diffDraw])
    (by simp [simulate_year_with_tracking, trackLoop_soc_hist_length, diffDraw])
    (by simp [diffDraw])

/-- Claim C1, counterexample: `simulate_year` does not return the
fraction of successful slots.  On the concrete full-year draw
`oneSuccessYear` the fraction is 1/2190, while the function returns
the Boolean false (read numerically, 0 ≠ 1/2190): it returns the
threshold verdict, not the fraction. -/
theorem C1_not_fraction_counterexample :
    simulate_year_fraction oneSuccessYear = 1 / 2190 ∧
    simulate_year oneSuccessYear = false ∧
    boolToRat (simulate_year oneSuccessYear) ≠
      simulate_year_fraction oneSuccessYear := by
  have hfirst : (simulate_fcr_slot [max (100000 : ℚ) 0] oneGoodSlot).success = true := by
    simp [simulate_fcr_slot, oneGoodSlot, sumMasked, ENERGY_HOURS,
      P_AVAILABLE_FCR, REQUIRED_POWER]
    norm_num [max_def]
  have hcount : yearLoop (initSocs oneSuccessYear) oneSuccessYear.slots = 1 := by
    show yearLoop [max (100000 : ℚ) 0]
      (oneGoodSlot :: List.replicate (N_SLOTS_YEAR - 1) deadSlot) = 1
    rw [yearLoop_cons, hfirst, yearLoop_replicate_dead]
    norm_num
  have hfrac : simulate_year_fraction oneSuccessYear = 1 / 2190 := by
    show (yearLoop (initSocs oneSuccessYear) oneSuccessYear.slots : ℚ) /
        (N_SLOTS_YEAR : ℚ) = 1 / 2190
    rw [hcount]
    norm_num [N_SLOTS_YEAR]
  have hver : simulate_year oneSuccessYear = false := by
    show decide (MIN_SUCCESS_RATE ≤
        (yearLoop (initSocs oneSuccessYear) oneSuccessYear.slots : ℚ) /
          (N_SLOTS_YEAR : ℚ)) = false
    rw [hcount, decide_eq_false_iff_not]
    norm_num [MIN_SUCCESS_RATE, N_SLOTS_YEAR]
  refine ⟨hfrac, hver, ?_⟩
  rw [hver, hfrac]
  norm_num [boolToRat]

/-- Claim C1, amended: `simulate_year` computes the fraction of
successful slots (success count divided by the configured annual slot
count, a value in [0,1] on a full-year draw) but returns only the
Boolean verdict of comparing that fraction against
`MIN_SUCCESS_RATE`, not the fraction itself. -/
theorem C1_returns_threshold_verdict (d : YearDraw) :
    simulate_year d = decide (MIN_SUCCESS_RATE ≤ simulate_year_fraction d) ∧
    (d.slots.length = N_SLOTS_YEAR →
      0 ≤ simulate_year_fraction d ∧ simulate_year_fraction d ≤ 1) := by
  refine ⟨rfl, ?_⟩
  intro hlen
  have hle := yearLoop_le_length d.slots (initSocs d)
  rw [hlen] at hle
  constructor
  · show (0 : ℚ) ≤ (yearLoop (initSocs d) d.slots : ℚ) / (N_SLOTS_YEAR : ℚ)
    apply div_nonneg (by positivity) (by norm_num [N_SLOTS_YEAR])
  · show (yearLoop (initSocs d) d.slots : ℚ) / (N_SLOTS_YEAR : ℚ) ≤ 1
    rw [div_le_one (by norm_num [N_SLOTS_YEAR])]
    exact_mod_cast hle

/-- Witness for C1 at the concrete full-year draw `oneSuccessYear`
(2190 slots). -/
theorem C1_returns_threshold_verdict_witness :
    simulate_year oneSuccessYear =
      decide (MIN_SUCCESS_RATE ≤ simulate_year_fraction oneSuccessYear) ∧
    (0 ≤ simulate_year_fraction oneSuccessYear ∧
      simulate_year_fraction oneSuccessYear ≤ 1) :=
  ⟨(C1_returns_threshold_verdict oneSuccessYear).1,
   (C1_returns_threshold_verdict oneSuccessYear).2
     (by show (oneGoodSlot :: List.replicate (N_SLOTS_YEAR - 1) deadSlot).length =
           N_SLOTS_YEAR
         rw [List.length_cons, List.length_replicate]
         norm_num [N_SLOTS_YEAR])⟩

/-- Claim C2: the capacity search scans the ascending candidate sizes
`n_min, n_min + step, …, ≤ n_max` and returns the FIRST one whose
estimated annual-success probability clears the confidence target,
packaged with its installed capacity (size × mean power), its
oversizing ratio (capacity ÷ required power) and the estimated
probability; every scanned size below the returned one fails the
target, and the search returns the distinguishable `none` exactly when
no scanned candidate clears the target. -/
theorem C2_capacity_search_first_hit (trialsFor : ℕ → List YearDraw)
    (confidence_target : ℚ) (n_min n_max step : ℕ) (hstep : 0 < step) :
    (∀ n c o p,
      find_min_assets_annual trialsFor confidence_target n_min n_max step =
          some (n, c, o, p) →
        n ∈ candidate_sizes n_min n_max step ∧
        n_min ≤ n ∧ n ≤ n_max ∧
        confidence_target ≤ annual_success_probability (trialsFor n) ∧
        p = annual_success_probability (trialsFor n) ∧
        c = installed_capacity n ∧
        o = installed_capacity n / REQUIRED_POWER ∧
        (∀ m ∈ candidate_sizes n_min n_max step, m < n →
          annual_success_probability (trialsFor m) < confidence_target)) ∧
    (find_min_assets_annual trialsFor confidence_target n_min n_max step = none ↔
      ∀ m ∈ candidate_sizes n_min n_max step,
        annual_success_probability (trialsFor m) < confidence_target) := by
  constructor
  · intro n c o p h
    obtain ⟨hmem, htarget, hp, hc, ho, hfirst⟩ :=
      searchLoop_some_spec trialsFor confidence_target _
        (candidate_sizes_pairwise n_min n_max step hstep) n c o p h
    obtain ⟨hlo, hhi, -⟩ := candidate_sizes_mem_bounds n_min n_max step n hmem
    exact ⟨hmem, hlo, hhi, htarget, hp, hc, ho, hfirst⟩
  · exact searchLoop_none_iff trialsFor confidence_target _

/-- Witness for C2 at a concrete instance: one empty-portfolio trial
per candidate gives estimated probability 0 at every scanned size, so
the search reports the not-found signal. -/
theorem C2_capacity_search_first_hit_witness :
    find_min_assets_annual (fun _ => [⟨[], []⟩]) (1/2) 1 2 1 = none :=
  (C2_capacity_search_first_hit (fun _ => [⟨[], []⟩]) (1/2) 1 2 1
      (by norm_num)).2.mpr
    (by
      intro m hm
      have h0 : simulate_year (⟨[], []⟩ : YearDraw) = false := by
        have : initSocs (⟨[], []⟩ : YearDraw) = [] := rfl
        simp [simulate_year, this, yearLoop_nil_socs, MIN_SUCCESS_RATE, N_SLOTS_YEAR]
      simp [annual_success_probability, h0])

end VPP
